import Mathlib

/-!
Verification of the AutoFoundr scaffold (backend/main.py mock generator and
frontend/pages/api/generate.js proxy route), shallowly embedded in Lean.

Randomness is made explicit: each call of random.choice over a k-element
list is modelled as an extra argument of type Fin k selecting the element.
A Python function that can raise (IndexError from base.split()[0] on an
input with no tokens) returns an Option, with none for the raised error.
-/

namespace AutoFoundr

/-- ASCII whitespace as recognised by the Python str.split() method with no
arguments: space, tab, newline, vertical tab, form feed, carriage return. -/
def pyIsSpace (c : Char) : Bool :=
  c = ' ' || c = '\t' || c = '\n' || c = '\x0b' || c = '\x0c' || c = '\r'

/-- Helper for pySplit: walks the characters, accumulating the current token
in reverse; whitespace ends the token, empty tokens are dropped. -/
def pySplitAux : List Char → List Char → List String
  | [], acc => if acc = [] then [] else [String.mk acc.reverse]
  | c :: cs, acc =>
    if pyIsSpace c then
      if acc = [] then pySplitAux cs []
      else String.mk acc.reverse :: pySplitAux cs []
    else pySplitAux cs (c :: acc)

/-- Python str.split() with no arguments: split on runs of whitespace,
discarding empty tokens; the empty or all-whitespace string gives []. -/
def pySplit (s : String) : List String := pySplitAux s.toList []

/-- Python str.capitalize() (ASCII fragment): first character uppercased,
every following character lowercased; the empty string maps to itself. -/
def pyCapitalize (s : String) : String :=
  match s.toList with
  | [] => ""
  | c :: cs => String.mk (c.toUpper :: cs.map Char.toLower)

/-- Python base.replace with the two one-character arguments space and plus,
as in mock_logo_url: every space character becomes a plus sign. -/
def pyReplaceSpacePlus (s : String) : String :=
  String.mk (s.toList.map fun c => if c = ' ' then '+' else c)

/-- Modelled from the claim wording, not from the source, for comparison:
the phrase with every whitespace character (not only the space character)
replaced by a plus sign. -/
def specReplaceAllWs (s : String) : String :=
  String.mk (s.toList.map fun c => if pyIsSpace c then '+' else c)

/-- The fixed suffix list of mock_brand_name (the local variable of the
source named like the plural of part). -/
def brandSuffixes : List String :=
  ["Co", "Lab", "Works", "Craft", "Studio", "Goods", "Peak", "Root"]

/-- mock_brand_name from backend/main.py:
(base.split()[0].capitalize() + random.choice(suffixes))[:30].
The subscript [0] raises IndexError when split returns no tokens, which we
model as none; the Fin 8 argument is the random.choice draw. -/
def mock_brand_name (base : String) (choice : Fin 8) : Option String :=
  match pySplit base with
  | [] => none
  | t :: _ =>
    some (String.mk ((pyCapitalize t ++ brandSuffixes.get (Fin.cast rfl choice)).toList.take 30))

/-- mock_logo_url from backend/main.py: the placeholder URL whose query text
is the base with spaces replaced by plus signs. -/
def mock_logo_url (base : String) : String :=
  "https://via.placeholder.com/256x256.png?text=" ++ pyReplaceSpacePlus base

/-- mock_title from backend/main.py: capitalized base followed by the fixed
marketing tail (an em dash and the words Premium Edition). -/
def mock_title (base : String) : String :=
  pyCapitalize base ++ " — Premium Edition"

/-- mock_description from backend/main.py: one fixed sentence template
interpolating the base once. -/
def mock_description (base : String) : String :=
  "The " ++ base ++ " designed for people who want quality and sustainability. Handcrafted and tested."

/-- The four price points of mock_price, in cents: the Python float literals
19.99, 24.99, 29.99, 49.99 each read back exactly under the two-decimal
format used by the source. -/
def priceCentsList : List Nat := [1999, 2499, 2999, 4999]

/-- Fixed two-decimal rendering of a price in cents: dollars, a dot, and the
zero-padded cents, modelling the Python format spec .2f on the four exact
two-decimal price literals. -/
def formatCents (c : Nat) : String :=
  toString (c / 100) ++ "." ++ (if c % 100 < 10 then "0" else "") ++ toString (c % 100)

/-- mock_price from backend/main.py: a dollar sign followed by the chosen
price point formatted to two decimals; the Fin 4 argument is the
random.choice draw. -/
def mock_price (pchoice : Fin 4) : String :=
  "$" ++ formatCents (priceCentsList.get (Fin.cast rfl pchoice))

/-- mock_ads from backend/main.py: the three fixed sentence templates, in
source order, each interpolating the base once. -/
def mock_ads (base : String) : List String :=
  ["Try our " ++ base ++ " — limited launch offer!",
   "Why our " ++ base ++ " is better: sustainable, durable, stylish.",
   "See how our " ++ base ++ " fits your life in 15 seconds."]

/-- Brand part of the response model (pydantic class Brand). -/
structure Brand where
  name : String
  logo : String
deriving DecidableEq, Repr

/-- Product part of the response model (pydantic class Product). -/
structure Product where
  title : String
  description : String
  price : String
deriving DecidableEq, Repr

/-- GenerateResponse model: one brand, one product, a list of ads. -/
structure GenerateResponse where
  brand : Brand
  product : Product
  ads : List String
deriving DecidableEq, Repr

/-- The Python expression req.idea or the default phrase: None and the empty
string are falsy, so both fall through to the literal cool product. -/
def pyOrDefault (idea : Option String) : String :=
  match idea with
  | none => "cool product"
  | some s => if s = "" then "cool product" else s

/-- The generate endpoint of backend/main.py: substitutes the default for a
falsy idea, then builds the bundle from the mock helpers; none models the
IndexError escaping from mock_brand_name (an HTTP 500, no response body of
the declared shape). The Fin arguments are the two random draws. -/
def generate (idea : Option String) (choice : Fin 8) (pchoice : Fin 4) :
    Option GenerateResponse :=
  let base := pyOrDefault idea
  match mock_brand_name base choice with
  | none => none
  | some n =>
    some ⟨⟨n, mock_logo_url base⟩,
          ⟨mock_title base, mock_description base, mock_price pchoice⟩,
          mock_ads base⟩

/-- Body of the proxy response: empty (res.end with no body), relayed JSON
data, or the JSON error object with its message string. -/
inductive ProxyBody (α : Type) where
  | empty : ProxyBody α
  | data : α → ProxyBody α
  | err : String → ProxyBody α
deriving DecidableEq

/-- The proxy route handler of frontend/pages/api/generate.js. The backend
call is modelled by its outcome: none when fetch throws (transport failure),
some (s, none) when fetch returns status s but the json() parse throws, and
some (s, some d) when the body parses to d. The handler returns the HTTP
status it sets and the body it sends. -/
def handler {α : Type} (method : String) (backendFetch : Option (Nat × Option α)) :
    Nat × ProxyBody α :=
  if method ≠ "POST" then (405, ProxyBody.empty)
  else
    match backendFetch with
    | none => (500, ProxyBody.err "backend proxy failed")
    | some (_, none) => (500, ProxyBody.err "backend proxy failed")
    | some (_, some d) => (200, ProxyBody.data d)

/-- Does the first character list occur at the head of the second? -/
def leadsWith : List Char → List Char → Bool
  | [], _ => true
  | _ :: _, [] => false
  | a :: as, b :: bs => a = b && leadsWith as bs

/-- Does the first character list occur contiguously anywhere in the second? -/
def hasSeg (seg : List Char) : List Char → Bool
  | [] => leadsWith seg []
  | b :: bs => leadsWith seg (b :: bs) || hasSeg seg bs

/-- Every character list occurs at its own head. -/
theorem leadsWith_self : ∀ l : List Char, leadsWith l l = true
  | [] => rfl
  | a :: as => by simp [leadsWith, leadsWith_self as]

/-- Every character list occurs in itself. -/
theorem hasSeg_self (s : List Char) : hasSeg s s = true := by
  cases s with
  | nil => rfl
  | cons b bs => simp [hasSeg, leadsWith_self]

/-- A character list occurs in anything that ends with it. -/
theorem hasSeg_append (s pre : List Char) : hasSeg s (pre ++ s) = true := by
  induction pre with
  | nil => simpa using hasSeg_self s
  | cons b bs ih => simp [hasSeg, ih]

/-- C1 (amended): mock_brand_name returns a result exactly when the phrase
has at least one whitespace-delimited token; all other mock helpers are
plain total functions of their string input. On the empty (or
all-whitespace) string mock_brand_name raises IndexError and returns no
result, so the ContentGenerator is not total. -/
theorem mock_brand_name_isSome_iff (base : String) (choice : Fin 8) :
    (mock_brand_name base choice).isSome = true ↔ pySplit base ≠ [] := by
  cases h : pySplit base with
  | nil => simp [mock_brand_name, h]
  | cons t ts => simp [mock_brand_name, h]

/-- C1 counterexample: on the empty string, mock_brand_name raises
IndexError (modelled as none), refuting totality over all string inputs. -/
theorem mock_brand_name_empty_none : mock_brand_name "" (0 : Fin 8) = none := rfl

/-- C2: for every phrase with at least one whitespace-delimited token, the
brand name is the capitalized first token concatenated with the chosen
suffix from the fixed 8-element list, truncated to 30 characters, hence of
length at most 30. -/
theorem mock_brand_name_tokenized (base : String) (choice : Fin 8)
    (t : String) (ts : List String) (h : pySplit base = t :: ts) :
    ∃ n, mock_brand_name base choice = some n ∧
      n = String.mk
        ((pyCapitalize t ++ brandSuffixes.get (Fin.cast rfl choice)).toList.take 30) ∧
      brandSuffixes.get (Fin.cast rfl choice) ∈ brandSuffixes ∧
      brandSuffixes.length = 8 ∧
      n.length ≤ 30 := by
  refine ⟨_, by simp [mock_brand_name, h], rfl, List.get_mem _ _ _, rfl, ?_⟩
  show (List.take 30 _).length ≤ 30
  simp [List.length_take]

/-- C2 witness: the brand-name contract evaluated on a concrete phrase. -/
theorem mock_brand_name_tokenized_witness :
    pySplit "eco-friendly phone case" = "eco-friendly" :: ["phone", "case"] ∧
    ∃ n, mock_brand_name "eco-friendly phone case" (0 : Fin 8) = some n ∧
      n = String.mk
        ((pyCapitalize "eco-friendly" ++
          brandSuffixes.get (Fin.cast rfl (0 : Fin 8))).toList.take 30) ∧
      brandSuffixes.get (Fin.cast rfl (0 : Fin 8)) ∈ brandSuffixes ∧
      brandSuffixes.length = 8 ∧
      n.length ≤ 30 :=
  ⟨by decide,
   mock_brand_name_tokenized "eco-friendly phone case" 0 "eco-friendly" ["phone", "case"]
     (by decide)⟩

/-- C3 (amended): the logo URL is exactly the fixed placeholder URL with
query text the phrase with space characters (only the space character, not
every whitespace character) replaced by plus signs, and hence contains that
space-substituted phrase. -/
theorem mock_logo_url_query_text (base : String) :
    mock_logo_url base =
      "https://via.placeholder.com/256x256.png?text=" ++ pyReplaceSpacePlus base ∧
    hasSeg (pyReplaceSpacePlus base).toList (mock_logo_url base).toList = true := by
  refine ⟨rfl, ?_⟩
  have h : (mock_logo_url base).toList =
      "https://via.placeholder.com/256x256.png?text=".toList ++
        (pyReplaceSpacePlus base).toList := by
    simp [mock_logo_url, String.toList, String.data_append]
  rw [h]
  exact hasSeg_append _ _

/-- C3 counterexample: on the phrase with a tab between the two letters, the
URL does not contain the phrase with all whitespace replaced by plus signs,
since the source replaces only the space character. -/
theorem mock_logo_url_tab_unreplaced :
    hasSeg (specReplaceAllWs "a\tb").toList (mock_logo_url "a\tb").toList = false := by
  decide

/-- C4: with the idea absent, generate substitutes the fixed default phrase
and behaves exactly as on the supplied phrase cool product, returning a
response of the standard shape with exactly 3 ads. -/
theorem generate_absent_defaults (choice : Fin 8) (pchoice : Fin 4) :
    generate none choice pchoice = generate (some "cool product") choice pchoice ∧
    ∃ r, generate none choice pchoice = some r ∧ r.ads.length = 3 := by
  refine ⟨rfl, ?_⟩
  have hs : pySplit (pyOrDefault none) = ["cool", "product"] := rfl
  refine ⟨⟨⟨String.mk ((pyCapitalize "cool" ++
      brandSuffixes.get (Fin.cast rfl choice)).toList.take 30),
      mock_logo_url (pyOrDefault none)⟩,
    ⟨mock_title (pyOrDefault none), mock_description (pyOrDefault none),
      mock_price pchoice⟩,
    mock_ads (pyOrDefault none)⟩, ?_, rfl⟩
  simp [generate, mock_brand_name, hs]

/-- C5 (amended): whenever the substituted base phrase has at least one
whitespace-delimited token — which covers every absent and every
empty-string idea, both defaulted to cool product — the response exists and
carries exactly one brand, one product, and exactly the 3 fixed ad
templates interpolating the base, in their fixed source order. An idea
consisting only of whitespace is accepted by the endpoint but produces an
IndexError and no response. -/
theorem generate_shape (idea : Option String) (choice : Fin 8) (pchoice : Fin 4)
    (h : pySplit (pyOrDefault idea) ≠ []) :
    ∃ r, generate idea choice pchoice = some r ∧
      r.ads = ["Try our " ++ pyOrDefault idea ++ " — limited launch offer!",
               "Why our " ++ pyOrDefault idea ++ " is better: sustainable, durable, stylish.",
               "See how our " ++ pyOrDefault idea ++ " fits your life in 15 seconds."] ∧
      r.ads.length = 3 := by
  cases hs : pySplit (pyOrDefault idea) with
  | nil => exact absurd hs h
  | cons t ts =>
    refine ⟨⟨⟨String.mk ((pyCapitalize t ++
        brandSuffixes.get (Fin.cast rfl choice)).toList.take 30),
        mock_logo_url (pyOrDefault idea)⟩,
      ⟨mock_title (pyOrDefault idea), mock_description (pyOrDefault idea),
        mock_price pchoice⟩,
      mock_ads (pyOrDefault idea)⟩, ?_, rfl, rfl⟩
    simp [generate, mock_brand_name, hs]

/-- C5 witness: the shape contract evaluated on a concrete supplied idea. -/
theorem generate_shape_witness :
    pySplit (pyOrDefault (some "mug")) ≠ [] ∧
    ∃ r, generate (some "mug") (0 : Fin 8) (0 : Fin 4) = some r ∧
      r.ads = ["Try our " ++ pyOrDefault (some "mug") ++ " — limited launch offer!",
               "Why our " ++ pyOrDefault (some "mug") ++ " is better: sustainable, durable, stylish.",
               "See how our " ++ pyOrDefault (some "mug") ++ " fits your life in 15 seconds."] ∧
      r.ads.length = 3 :=
  ⟨by decide, generate_shape (some "mug") 0 0 (by decide)⟩

/-- C5 counterexample: the all-whitespace idea is truthy (so not defaulted)
yet splits to no tokens, so generate produces no response at all, refuting
the claim for every accepted input phrase. -/
theorem generate_whitespace_idea_none :
    generate (some " ") (0 : Fin 8) (0 : Fin 4) = none := rfl

/-- C6: every price mock_price can return is one of the four fixed strings,
each with a leading dollar sign and exactly two decimal places. -/
theorem mock_price_values (pchoice : Fin 4) :
    mock_price pchoice ∈ ["$19.99", "$24.99", "$29.99", "$49.99"] := by
  fin_cases pchoice <;> decide

/-- C7: the proxy handler answers 405 with an empty body to every non-POST
method, and 500 with the single generic error string to a POST whose
backend call fails in transport (fetch throws) or parsing (json throws),
never distinguishing the two failure causes. -/
theorem handler_405_and_500 (A : Type) (m : String) (bf : Option (Nat × Option A)) :
    (m ≠ "POST" → handler m bf = (405, ProxyBody.empty)) ∧
    (m = "POST" → (bf = none ∨ ∃ s, bf = some (s, none)) →
      handler m bf = (500, ProxyBody.err "backend proxy failed")) := by
  constructor
  · intro hm
    simp [handler, hm]
  · rintro hm (rfl | ⟨s, rfl⟩) <;> simp [handler, hm]

/-- C8: generation is not idempotent — two draws on the same phrase can
differ (here in the brand suffix) — while every field other than the brand
name and the price is a function of the phrase alone, and brand name and
price depend only on their own draw. -/
theorem generate_not_idempotent :
    (∃ (i : Option String) (c₁ c₂ : Fin 8) (p₁ p₂ : Fin 4),
      generate i c₁ p₁ ≠ generate i c₂ p₂) ∧
    (∀ (i : Option String) (c₁ c₂ : Fin 8) (p₁ p₂ : Fin 4)
        (r₁ r₂ : GenerateResponse),
      generate i c₁ p₁ = some r₁ → generate i c₂ p₂ = some r₂ →
      r₁.brand.logo = r₂.brand.logo ∧ r₁.product.title = r₂.product.title ∧
      r₁.product.description = r₂.product.description ∧ r₁.ads = r₂.ads ∧
      (c₁ = c₂ → r₁.brand.name = r₂.brand.name) ∧
      (p₁ = p₂ → r₁.product.price = r₂.product.price)) := by
  constructor
  · exact ⟨some "mug", 0, 1, 0, 0, by decide⟩
  · intro i c₁ c₂ p₁ p₂ r₁ r₂ h₁ h₂
    cases hs : pySplit (pyOrDefault i) with
    | nil => simp [generate, mock_brand_name, hs] at h₁
    | cons t ts =>
      simp [generate, mock_brand_name, hs] at h₁ h₂
      subst h₁
      subst h₂
      refine ⟨rfl, rfl, rfl, rfl, ?_, ?_⟩ <;>
        · intro he
          subst he
          rfl

/-- C9: a present but empty idea is falsy in the Python or-expression, so it
is defaulted exactly like an absent idea: the whole generation coincides
with the absent case on every draw, and the base phrase handed to the mock
helpers is the default. -/
theorem generate_empty_idea_defaults (choice : Fin 8) (pchoice : Fin 4) :
    generate (some "") choice pchoice = generate none choice pchoice ∧
    pyOrDefault (some "") = "cool product" :=
  ⟨rfl, rfl⟩

/-- C10: whenever the backend reply body parses as JSON, the proxy answers
the client with status 200 and that body, whatever HTTP status the backend
itself returned: a non-200 backend status is never propagated. -/
theorem handler_relays_parsed_body (A : Type) (s : Nat) (d : A) :
    handler "POST" (some (s, some d)) = (200, ProxyBody.data d) := by
  simp [handler]

end AutoFoundr
